/-
Verification of the `Network` request orchestrator (`src/network.unit.ts`)
of the synthetism/network package.

The orchestrator composes external collaborators: an HTTP transport, a
circuit-breaker unit, a retry unit, an optional rate limiter and an
optional proxy pool.  The orchestration logic itself (the `request`
method, circuit-breaker registry handling, proxy shape conversion,
error classification for proxy blame, and the management operations) is
embedded below directly from the TypeScript source.  The collaborators
are external packages whose code is not part of this repository; where a
claim depends on their behaviour they are modelled from the
specification, with a doc comment saying so.
-/
import Mathlib

namespace NetworkUnit

/-! ## Basic data shapes -/

/-- Proxy protocols appearing in the source
(`'http' | 'https' | 'socks5'`). -/
inductive Protocol where
  | http
  | https
  | socks5
deriving DecidableEq, Repr

/-- A proxy-pool connection (`ProxyConnection` of `@synet/proxy`):
`{id, host, port, username, password, protocol, country}` as read by the
duck-type conversion in `httpOperation`. -/
structure ProxyPoolConnection where
  id : String
  host : String
  port : Nat
  username : Option String
  password : Option String
  protocol : Protocol
  country : Option String
deriving DecidableEq, Repr

/-- The transport-side proxy shape (`ProxyConnection` of `@synet/http`),
built by `httpOperation` from a pool connection. -/
structure TransportProxy where
  id : String
  host : String
  port : Nat
  username : Option String
  password : Option String
  protocol : Protocol
  country : Option String
deriving DecidableEq, Repr

/-- Duck-type conversion from the pool connection to the transport proxy
shape, from `httpOperation` (src/src/network.unit.ts lines 210-218):
every field is copied, and `protocol` is
`proxyFromPool.protocol === 'https' ? 'http' : proxyFromPool.protocol`. -/
def toTransportProxy (p : ProxyPoolConnection) : TransportProxy :=
  { id := p.id
    host := p.host
    port := p.port
    username := p.username
    password := p.password
    protocol := if p.protocol = Protocol.https then Protocol.http else p.protocol
    country := p.country }

/-- HTTP methods recognised by `RequestOptions`. -/
inductive Method where
  | GET
  | POST
  | PUT
  | DELETE
  | PATCH
deriving DecidableEq, Repr

/-- `RequestOptions` from the source: `{method?, headers?, body?, timeout?}`. -/
structure RequestOptions where
  method : Option Method := none
  headers : Option (List (String × String)) := none
  body : Option String := none
  timeout : Option Nat := none
deriving DecidableEq, Repr

/-- A successful transport result (`RequestResult` of `@synet/http`),
kept abstract up to the fields the orchestrator passes through. -/
structure RequestResult where
  status : Nat
  body : String
  requestId : String
  timestamp : Nat
deriving DecidableEq, Repr

/-! ## URL model

The orchestrator uses the platform WHATWG `URL` API (not repository
code) only to (a) detect whether the request url is absolute, (b)
resolve a relative url against the configured base url (or
`http://localhost` when none), and (c) extract the hostname.  We model a
url structurally. -/

/-- A parsed absolute URL, with the components the orchestrator reads. -/
structure Url where
  scheme : String
  host : String
  port : Option Nat
  path : String
  query : String
deriving DecidableEq, Repr

/-- The raw url string handed to `request`: either an absolute URL
(`new URL(url)` succeeds) or a relative path (`new URL(url)` throws). -/
inductive UrlInput where
  | absolute (u : Url)
  | relative (path : String)
deriving DecidableEq, Repr

/-- `http://localhost`, the fallback base used when the HTTP unit has no
configured `baseUrl` (src line 163). -/
def localhostUrl : Url :=
  { scheme := "http", host := "localhost", port := none, path := "/", query := "" }

/-- Modelled from the spec: WHATWG URL resolution as used at src lines
157-165 (platform API, not repository code).  An absolute url parses to
itself; a relative path resolves against the base url's origin. -/
def resolveFullUrl (input : UrlInput) (base : Url) : Url :=
  match input with
  | UrlInput.absolute u => u
  | UrlInput.relative p =>
      { scheme := base.scheme, host := base.host, port := base.port
        path := p, query := "" }

/-! ## Error classification -/

/-- JavaScript `String.prototype.includes`, modelled as substring
occurrence on the character list. -/
def strIncludes (s pat : String) : Bool :=
  s.toList.tails.any fun t => pat.toList.isPrefixOf t

/-- The proxy/network error classification of `httpOperation`
(src lines 247-254): the caught error message is scanned for the listed
substrings. -/
def isProxyError (errorMessage : String) : Bool :=
  strIncludes errorMessage "ECONNREFUSED" ||
  strIncludes errorMessage "ETIMEDOUT" ||
  strIncludes errorMessage "ENOTFOUND" ||
  strIncludes errorMessage "proxy" ||
  strIncludes errorMessage "ECONNRESET" ||
  strIncludes errorMessage "407" ||
  strIncludes errorMessage "Invalid Auth"

/-! ## Circuit breaker (external `@synet/circuit-breaker`, modelled from
the spec, section 4.2) -/

/-- Circuit states. -/
inductive CircuitStateTag where
  | CLOSED
  | OPEN
  | HALF_OPEN
deriving DecidableEq, Repr

/-- Circuit-breaker configuration surface (spec section 6). -/
structure CircuitConfig where
  failureThreshold : Nat
  openTimeoutMs : Nat
  halfOpenSuccessThreshold : Nat
deriving DecidableEq, Repr

/-- Modelled from the spec: the `CircuitState` record of section 3,
owned by the external circuit-breaker unit. -/
structure CircuitBreaker where
  state : CircuitStateTag
  failureCount : Nat
  successCount : Nat
  lastFailureTimestamp : Nat
  config : CircuitConfig
deriving DecidableEq, Repr

/-- Modelled from the spec: `CircuitBreaker.create` yields the initial
CLOSED state with zeroed counters (spec section 4.2: CLOSED is initial). -/
def CircuitBreaker.create (cfg : CircuitConfig) : CircuitBreaker :=
  { state := CircuitStateTag.CLOSED
    failureCount := 0
    successCount := 0
    lastFailureTimestamp := 0
    config := cfg }

/-- Modelled from the spec: the admission check `canProceed()` of the
external circuit-breaker unit (spec section 4.2).  CLOSED admits;
OPEN transitions lazily to HALF_OPEN once `openTimeoutMs` has elapsed
since the last failure, and otherwise denies; HALF_OPEN admits the
probing attempt.  Returns the decision and the (possibly transitioned)
circuit. -/
def CircuitBreaker.canProceed (cb : CircuitBreaker) (now : Nat) : Bool × CircuitBreaker :=
  match cb.state with
  | CircuitStateTag.CLOSED => (true, cb)
  | CircuitStateTag.OPEN =>
      if cb.lastFailureTimestamp + cb.config.openTimeoutMs ≤ now then
        (true, { cb with state := CircuitStateTag.HALF_OPEN })
      else
        (false, cb)
  | CircuitStateTag.HALF_OPEN => (true, cb)

/-- Modelled from the spec: `recordSuccess()` of the external
circuit-breaker unit.  HALF_OPEN closes on success, resetting the
counters; otherwise the success counter is incremented and the
consecutive-failure counter cleared (spec section 4.2). -/
def CircuitBreaker.recordSuccess (cb : CircuitBreaker) : CircuitBreaker :=
  match cb.state with
  | CircuitStateTag.HALF_OPEN =>
      { cb with state := CircuitStateTag.CLOSED, failureCount := 0, successCount := 0 }
  | _ =>
      { cb with successCount := cb.successCount + 1, failureCount := 0 }

/-- Modelled from the spec: `recordFailure()` of the external
circuit-breaker unit.  HALF_OPEN reopens on failure; CLOSED opens once
consecutive failures reach `failureThreshold` (spec section 4.2). -/
def CircuitBreaker.recordFailure (cb : CircuitBreaker) (now : Nat) : CircuitBreaker :=
  match cb.state with
  | CircuitStateTag.HALF_OPEN =>
      { cb with state := CircuitStateTag.OPEN
                failureCount := cb.failureCount + 1
                lastFailureTimestamp := now }
  | _ =>
      if cb.config.failureThreshold ≤ cb.failureCount + 1 then
        { cb with state := CircuitStateTag.OPEN
                  failureCount := cb.failureCount + 1
                  lastFailureTimestamp := now }
      else
        { cb with failureCount := cb.failureCount + 1
                  lastFailureTimestamp := now }

/-- Modelled from the spec: `resetCircuit()` of the external
circuit-breaker unit returns the circuit to
`{state: CLOSED, failureCount: 0, successCount: 0}` (spec sections 6
and 8). -/
def CircuitBreaker.resetCircuit (cb : CircuitBreaker) : CircuitBreaker :=
  { cb with state := CircuitStateTag.CLOSED, failureCount := 0, successCount := 0 }

/-! ## Rate limiter and proxy pool collaborator interfaces -/

/-- The admission context built at src lines 167-170:
`{key: new URL(fullUrl).hostname, url: fullUrl}`. -/
structure RateLimitContext where
  key : String
  url : Url
deriving DecidableEq, Repr

/-- The admission decision returned by the external rate limiter's
`check`. -/
structure RateLimitResult where
  allowed : Bool
  remaining : Nat
  retryAfter : Nat
deriving DecidableEq, Repr

/-- The external proxy pool, abstracted by the outcome of its `get()`
call for each attempt of the current request: a connection, or a thrown
acquisition error message (e.g. pool exhausted). -/
structure ProxyPool where
  get : Nat → Except String ProxyPoolConnection

/-- The outcome of one transport call `httpUnit.request(httpRequest)`:
a success (`result.isSuccess`), an application-level failure carried in
`result.error`, or a thrown network error with its message. -/
inductive TransportOutcome where
  | ok (r : RequestResult)
  | httpError (error : String)
  | thrown (message : String)
deriving DecidableEq, Repr

/-- The `HttpRequest` record built per attempt (src lines 226-233). -/
structure HttpRequest where
  url : UrlInput
  method : Method
  headers : Option (List (String × String))
  body : Option String
  timeout : Option Nat
  proxy : Option TransportProxy
deriving DecidableEq, Repr

/-- Retry policy shape as passed to the external retry unit
(`maxAttempts`, `baseDelay`, `maxDelay`, `backoffMultiplier`). -/
structure RetryPolicy where
  maxAttempts : Nat
  baseDelay : Nat
  maxDelay : Nat
  backoffMultiplier : Nat
deriving DecidableEq, Repr

/-- The literal retry options the source passes at the single
`retryUnit.retry(httpOperation, {...})` call site (src lines 266-271). -/
def callSitePolicy : RetryPolicy :=
  { maxAttempts := 3, baseDelay := 1000, maxDelay := 10000, backoffMultiplier := 2 }

/-- The environment of one `request` call: the injected collaborators
and the external world's behaviour during the call.  `transport` gives
the outcome of the attempt-indexed transport call; `retryable` is the
external classifier's retryability decision on a thrown error message;
`configuredRetry` is the retry configuration handed to `Retry.create`
at `Network.create` (src line 135); `now` is the clock reading. -/
structure Env where
  rateLimiter : Option (RateLimitContext → RateLimitResult)
  proxy : Option ProxyPool
  transport : Nat → HttpRequest → TransportOutcome
  retryable : String → Bool
  baseUrl : Option Url
  cbConfig : CircuitConfig
  configuredRetry : RetryPolicy
  now : Nat

/-! ## Observable events of one request -/

/-- Observable side effects on the collaborators during one `request`:
proxy acquisitions (successful or failed), transport calls, and
`proxy.failed(...)` reports. -/
inductive Event where
  | proxyAcquired (attempt : Nat) (p : ProxyPoolConnection)
  | proxyAcquireFailed (attempt : Nat) (msg : String)
  | transportCall (attempt : Nat) (req : HttpRequest)
  | proxyReportedFailed (attempt : Nat) (p : ProxyPoolConnection)
deriving DecidableEq, Repr

/-- The `proxy.failed(...)` reports contained in an event trace, in
order, as (attempt, connection) pairs. -/
def reportedFailures (evs : List Event) : List (Nat × ProxyPoolConnection) :=
  evs.filterMap fun e =>
    match e with
    | Event.proxyReportedFailed i p => some (i, p)
    | _ => none

/-- The transport calls contained in an event trace, in order. -/
def transportCalls (evs : List Event) : List (Nat × HttpRequest) :=
  evs.filterMap fun e =>
    match e with
    | Event.transportCall i req => some (i, req)
    | _ => none

/-! ## Orchestrator state and circuit registry -/

/-- `NetworkProps.circuitBreakers`, the `Map<string, CircuitBreaker>`
keyed by the raw request url, as an association list in insertion
order. -/
structure NetworkState where
  circuitBreakers : List (UrlInput × CircuitBreaker)
deriving DecidableEq, Repr

/-- `Map.prototype.get` on the circuit registry. -/
def lookupCB : List (UrlInput × CircuitBreaker) → UrlInput → Option CircuitBreaker
  | [], _ => none
  | (k, v) :: rest, u => if k = u then some v else lookupCB rest u

/-- `Map.prototype.set` on the circuit registry: replaces the existing
entry in place, or appends a new one. -/
def setCB : List (UrlInput × CircuitBreaker) → UrlInput → CircuitBreaker → List (UrlInput × CircuitBreaker)
  | [], u, cb => [(u, cb)]
  | (k, v) :: rest, u, cb =>
      if k = u then (k, cb) :: rest else (k, v) :: setCB rest u cb

/-- `Network.getCircuitBreaker` (src lines 287-298): look up the circuit
for the raw url, lazily creating it on first use. -/
def getCircuitBreaker (cfg : CircuitConfig) (s : NetworkState) (url : UrlInput) :
    CircuitBreaker × NetworkState :=
  match lookupCB s.circuitBreakers url with
  | some cb => (cb, s)
  | none =>
      let cb := CircuitBreaker.create cfg
      (cb, { circuitBreakers := setCB s.circuitBreakers url cb })

/-- `Network.resetCircuits` (src lines 312-316): calls `resetCircuit()`
on every tracked circuit; no entry is added or removed. -/
def resetCircuits (s : NetworkState) : NetworkState :=
  { circuitBreakers := s.circuitBreakers.map fun kv => (kv.1, kv.2.resetCircuit) }

/-! ## The per-attempt HTTP operation -/

/-- The tail of the `catch` block of `httpOperation` (src lines
245-263): classify the caught message; report the proxy as failed only
for a classified proxy/network error, when a pool connection was in
hand and a proxy unit is configured; rethrow. -/
def catchBlock (env : Env) (attempt : Nat) (msg : String)
    (proxyFromPool : Option ProxyPoolConnection) (evs : List Event) :
    Except String RequestResult × List Event :=
  match proxyFromPool, env.proxy with
  | some p, some _ =>
      if isProxyError msg then
        (Except.error msg, evs ++ [Event.proxyReportedFailed attempt p])
      else
        (Except.error msg, evs)
  | _, _ => (Except.error msg, evs)

/-- `httpOperation` (src lines 200-263), for one attempt: acquire a
fresh proxy when a proxy unit is configured (degrading to no proxy if
acquisition throws), build the `HttpRequest`, run the transport, and on
failure classify and possibly blame the proxy.  Returns the attempt's
outcome together with its event trace. -/
def httpOperation (env : Env) (url : UrlInput) (options : RequestOptions) (attempt : Nat) :
    Except String RequestResult × List Event :=
  let acq : Option TransportProxy × Option ProxyPoolConnection × List Event :=
    match env.proxy with
    | none => (none, none, [])
    | some pool =>
        match pool.get attempt with
        | Except.ok p =>
            (some (toTransportProxy p), some p, [Event.proxyAcquired attempt p])
        | Except.error e => (none, none, [Event.proxyAcquireFailed attempt e])
  let proxyConnection := acq.1
  let proxyFromPool := acq.2.1
  let req : HttpRequest :=
    { url := url
      method := options.method.getD Method.GET
      headers := options.headers
      body := options.body
      timeout := options.timeout
      proxy := proxyConnection }
  let evs := acq.2.2 ++ [Event.transportCall attempt req]
  match env.transport attempt req with
  | TransportOutcome.ok r => (Except.ok r, evs)
  | TransportOutcome.httpError e =>
      catchBlock env attempt ("HTTP request failed: " ++ e) proxyFromPool evs
  | TransportOutcome.thrown m =>
      catchBlock env attempt m proxyFromPool evs

/-! ## Retry coordinator (external `@synet/retry`, modelled from the
spec, section 4.3) -/

/-- Modelled from the spec: the delay scheduled before attempt `i`
(1-indexed).  The first attempt has no delay; thereafter the delay
grows exponentially from `baseDelay` by `backoffMultiplier`, capped at
`maxDelay`, matching the spec's observed sequence `[0, 100, 200]` for
`{baseDelayMs: 100, backoffFactor: 2}`. -/
def retryDelay (policy : RetryPolicy) (i : Nat) : Nat :=
  if i ≤ 1 then 0
  else min (policy.baseDelay * policy.backoffMultiplier ^ (i - 2)) policy.maxDelay

/-- Modelled from the spec: the bounded retry loop of the external
retry unit (section 4.3), running attempts `i, i+1, ...` while `fuel`
attempts remain; stops on success, on a non-retryable classification,
or when attempts are exhausted, failing with the last error.  Returns
the outcome, the concatenated event trace, and the scheduled delay of
each attempt made, in order. -/
def runRetryAux (env : Env) (policy : RetryPolicy)
    (op : Nat → Except String RequestResult × List Event) :
    Nat → Nat → Except String RequestResult × List Event × List Nat
  | _, 0 => (Except.error "retry: no attempts", [], [])
  | i, Nat.succ fuel =>
      let d := retryDelay policy i
      let step := op i
      match step.1 with
      | Except.ok r => (Except.ok r, step.2, [d])
      | Except.error e =>
          if fuel = 0 ∨ env.retryable e = false then
            (Except.error e, step.2, [d])
          else
            let rest := runRetryAux env policy op (i + 1) fuel
            (rest.1, step.2 ++ rest.2.1, d :: rest.2.2)

/-- Modelled from the spec: `runWithRetry(operation, policy)` of the
external retry unit (section 4.3). -/
def runWithRetry (env : Env) (policy : RetryPolicy)
    (op : Nat → Except String RequestResult × List Event) :
    Except String RequestResult × List Event × List Nat :=
  runRetryAux env policy op 1 policy.maxAttempts

/-! ## The request orchestration -/

/-- The outcome of one `request` call: the result, or one of the typed
failures thrown at src lines 174, 195 and 282. -/
inductive RequestOutcome where
  | success (r : RequestResult)
  | rateLimitExceeded (retryAfter : Nat)
  | circuitOpen
  | failedAfterRetries (finalError : String)
deriving DecidableEq, Repr

/-- The complete observable effect of one `request` call. -/
structure RequestRun where
  outcome : RequestOutcome
  state : NetworkState
  events : List Event
  delays : List Nat
deriving DecidableEq, Repr

/-- The rate-limit admission context built at src lines 154-170: the
full url is the request url when absolute, otherwise the url resolved
against the HTTP unit's base url (defaulting to `http://localhost`);
the key is that full url's hostname. -/
def rateLimitContext (env : Env) (url : UrlInput) : RateLimitContext :=
  let fullUrl := resolveFullUrl url (env.baseUrl.getD localhostUrl)
  { key := fullUrl.host, url := fullUrl }

/-- The circuit-breaker admission step of `request` (src lines
182-186): fetch or lazily create the circuit for the raw url, run its
admission check, and store the (possibly transitioned) circuit back.
Returns the admitted-or-denied circuit, the decision, and the updated
registry. -/
def admissionStep (env : Env) (s : NetworkState) (url : UrlInput) :
    CircuitBreaker × Bool × NetworkState :=
  let got := getCircuitBreaker env.cbConfig s url
  let checked := CircuitBreaker.canProceed got.1 env.now
  (checked.2, checked.1, { circuitBreakers := setCB got.2.circuitBreakers url checked.2 })

/-- The retry phase and outcome recording of `request` (src lines
264-284): run the retry loop over `httpOperation` with the call-site
policy; on overall success record one success into the url's circuit
and return the result; on overall failure record one failure and fail
wrapping the final error. -/
def retryPhase (env : Env) (s : NetworkState) (cb : CircuitBreaker)
    (url : UrlInput) (options : RequestOptions) : RequestRun :=
  let run := runWithRetry env callSitePolicy (httpOperation env url options)
  match run.1 with
  | Except.ok r =>
      { outcome := RequestOutcome.success r
        state := { circuitBreakers := setCB s.circuitBreakers url cb.recordSuccess }
        events := run.2.1
        delays := run.2.2 }
  | Except.error e =>
      { outcome := RequestOutcome.failedAfterRetries e
        state := { circuitBreakers := setCB s.circuitBreakers url (cb.recordFailure env.now) }
        events := run.2.1
        delays := run.2.2 }

/-- `request` after the rate-limit gate (src lines 182-284): circuit
admission with the proxy-rotation override, then the retry phase. -/
def requestAfterGate (env : Env) (s : NetworkState) (url : UrlInput)
    (options : RequestOptions) : RequestRun :=
  let adm := admissionStep env s url
  if adm.2.1 = false ∧ env.proxy.isNone then
    { outcome := RequestOutcome.circuitOpen, state := adm.2.2, events := [], delays := [] }
  else
    retryPhase env adm.2.2 adm.1 url options

/-- `Network.request(url, options)` (src lines 150-284): optional
rate-limit admission keyed by target hostname, then circuit admission
and the retry phase. -/
def request (env : Env) (s : NetworkState) (url : UrlInput)
    (options : RequestOptions) : RequestRun :=
  match env.rateLimiter with
  | some check =>
      let limitResult := check (rateLimitContext env url)
      if limitResult.allowed then
        requestAfterGate env s url options
      else
        { outcome := RequestOutcome.rateLimitExceeded limitResult.retryAfter
          state := s, events := [], delays := [] }
  | none => requestAfterGate env s url options

/-- The rate-limit gate's admission decision for a `request` call:
unconditional admission when no limiter is injected, otherwise the
limiter's decision on the hostname-keyed context. -/
def rateAdmits (env : Env) (url : UrlInput) : Bool :=
  match env.rateLimiter with
  | none => true
  | some check => (check (rateLimitContext env url)).allowed

/-! ## Concrete fixtures for the closed-form instances -/

def usersUrl : Url :=
  { scheme := "https", host := "api.example.com", port := none, path := "/users", query := "" }

def ordersUrl : Url :=
  { scheme := "https", host := "api.example.com", port := none, path := "/orders", query := "" }

def usersInput : UrlInput := UrlInput.absolute usersUrl

def ordersInput : UrlInput := UrlInput.absolute ordersUrl

def sampleProxyA : ProxyPoolConnection :=
  { id := "proxy-a", host := "p1.example.net", port := 8080
    username := some "user", password := some "pass"
    protocol := Protocol.https, country := some "US" }

def sampleProxyB : ProxyPoolConnection :=
  { id := "proxy-b", host := "p2.example.net", port := 1080
    username := none, password := none
    protocol := Protocol.socks5, country := some "DE" }

def okResult : RequestResult :=
  { status := 200, body := "ok", requestId := "req-1", timestamp := 42 }

def sampleConfig : CircuitConfig :=
  { failureThreshold := 5, openTimeoutMs := 60000, halfOpenSuccessThreshold := 1 }

/-- The retry configuration named by the spec's testable property
(`maxAttempts: 3, baseDelayMs: 100, backoffFactor: 2, jitter: false`). -/
def claimedRetryConfig : RetryPolicy :=
  { maxAttempts := 3, baseDelay := 100, maxDelay := 10000, backoffMultiplier := 2 }

def emptyState : NetworkState := { circuitBreakers := [] }

/-- A baseline environment: no rate limiter, no proxy, a transport that
succeeds on every attempt. -/
def baseEnv : Env :=
  { rateLimiter := none
    proxy := none
    transport := fun _ _ => TransportOutcome.ok okResult
    retryable := fun _ => true
    baseUrl := none
    cbConfig := sampleConfig
    configuredRetry := claimedRetryConfig
    now := 100000 }

/-- An OPEN circuit whose open-timeout has not yet elapsed at
`baseEnv.now`: admission is denied. -/
def openCircuit : CircuitBreaker :=
  { state := CircuitStateTag.OPEN, failureCount := 5, successCount := 0
    lastFailureTimestamp := 90000, config := sampleConfig }

/-- A transport failing every attempt with a connection-refused error. -/
def refusedTransport : Nat → HttpRequest → TransportOutcome :=
  fun _ _ => TransportOutcome.thrown "connect ECONNREFUSED 93.184.216.34:443"

/-- A transport failing every attempt with an application-level 404. -/
def notFoundTransport : Nat → HttpRequest → TransportOutcome :=
  fun _ _ => TransportOutcome.httpError "404 Not Found"

/-- A two-proxy pool alternating between the sample connections. -/
def twoProxyPool : ProxyPool :=
  { get := fun i => if i % 2 = 1 then Except.ok sampleProxyA else Except.ok sampleProxyB }

/-- An exhausted pool whose `get()` always throws. -/
def exhaustedPool : ProxyPool :=
  { get := fun _ => Except.error "Pool exhausted" }

/-! ## Registry lemmas -/

theorem lookupCB_setCB_self (l : List (UrlInput × CircuitBreaker)) (u : UrlInput)
    (cb : CircuitBreaker) : lookupCB (setCB l u cb) u = some cb := by
  induction l with
  | nil => simp [setCB, lookupCB]
  | cons kv rest ih =>
      by_cases h : kv.1 = u
      · simp [setCB, lookupCB, h]
      · simp [setCB, lookupCB, h, ih]

theorem lookupCB_setCB_ne (l : List (UrlInput × CircuitBreaker)) (u u' : UrlInput)
    (cb : CircuitBreaker) (h : u' ≠ u) :
    lookupCB (setCB l u cb) u' = lookupCB l u' := by
  induction l with
  | nil => simp [setCB, lookupCB, Ne.symm h]
  | cons kv rest ih =>
      by_cases hk : kv.1 = u
      · subst hk
        simp [setCB, lookupCB, Ne.symm h]
      · simp [setCB, lookupCB, hk, ih]

theorem setCB_setCB_self (l : List (UrlInput × CircuitBreaker)) (u : UrlInput)
    (cb cb' : CircuitBreaker) : setCB (setCB l u cb) u cb' = setCB l u cb' := by
  induction l with
  | nil => simp [setCB]
  | cons kv rest ih =>
      by_cases h : kv.1 = u
      · simp [setCB, h]
      · simp [setCB, h, ih]

/-- The retry phase always writes the registry at exactly the requested
url's key. -/
theorem retryPhase_state (env : Env) (s : NetworkState) (cb : CircuitBreaker)
    (url : UrlInput) (options : RequestOptions) :
    ∃ cb', (retryPhase env s cb url options).state.circuitBreakers =
      setCB s.circuitBreakers url cb' := by
  unfold retryPhase
  rcases h : (runWithRetry env callSitePolicy (httpOperation env url options)).1 with e | r
  · exact ⟨cb.recordFailure env.now, by simp [h]⟩
  · exact ⟨cb.recordSuccess, by simp [h]⟩

/-- After the rate-limit gate, every path of `request` updates the
registry at the requested url's key only. -/
theorem requestAfterGate_state (env : Env) (s : NetworkState) (url : UrlInput)
    (options : RequestOptions) :
    ∃ cb, (requestAfterGate env s url options).state.circuitBreakers =
      setCB s.circuitBreakers url cb := by
  unfold requestAfterGate admissionStep getCircuitBreaker
  cases hlook : lookupCB s.circuitBreakers url with
  | none =>
      dsimp
      split
      · exact ⟨((CircuitBreaker.create env.cbConfig).canProceed env.now).2,
          by simp [setCB_setCB_self]⟩
      · obtain ⟨cb', hcb'⟩ := retryPhase_state env
          { circuitBreakers := setCB (setCB s.circuitBreakers url (CircuitBreaker.create env.cbConfig)) url
              ((CircuitBreaker.create env.cbConfig).canProceed env.now).2 }
          ((CircuitBreaker.create env.cbConfig).canProceed env.now).2 url options
        exact ⟨cb', by rw [hcb']; simp [setCB_setCB_self]⟩
  | some cb₀ =>
      dsimp
      split
      · exact ⟨_, rfl⟩
      · obtain ⟨cb', hcb'⟩ := retryPhase_state env
          { circuitBreakers := setCB s.circuitBreakers url ((cb₀.canProceed env.now)).2 }
          ((cb₀.canProceed env.now)).2 url options
        exact ⟨cb', by rw [hcb']; simp [setCB_setCB_self]⟩

/-- With the rate-limit gate passed (or absent), `request` is the
post-gate orchestration. -/
theorem request_gate_passed (env : Env) (s : NetworkState) (url : UrlInput)
    (options : RequestOptions) (h : rateAdmits env url = true) :
    request env s url options = requestAfterGate env s url options := by
  unfold rateAdmits at h
  unfold request
  cases hl : env.rateLimiter with
  | none => rfl
  | some check =>
      rw [hl] at h
      dsimp at h ⊢
      rw [if_pos h]

/-- Every path of `request` leaves the registry untouched or updates it
at the requested url's key only. -/
theorem request_state_shape (env : Env) (s : NetworkState) (url : UrlInput)
    (options : RequestOptions) :
    (request env s url options).state.circuitBreakers = s.circuitBreakers ∨
    ∃ cb, (request env s url options).state.circuitBreakers = setCB s.circuitBreakers url cb := by
  by_cases h : rateAdmits env url = true
  · rw [request_gate_passed env s url options h]
    exact Or.inr (requestAfterGate_state env s url options)
  · unfold rateAdmits at h
    unfold request
    cases hl : env.rateLimiter with
    | none => rw [hl] at h; simp at h
    | some check =>
        rw [hl] at h
        dsimp at h ⊢
        rw [if_neg h]
        exact Or.inl rfl

/-! ## Claim theorems -/

/-- C10: The duck-type conversion of a pool connection to the
transport's proxy shape preserves `id`, `host`, `port`, `username`,
`password` and `country` unchanged, maps protocol `https` to `http`
and passes every other protocol through, so the transport never
receives a proxy with protocol `https`. -/
theorem proxy_shape_conversion (p : ProxyPoolConnection) :
    (toTransportProxy p).id = p.id ∧
    (toTransportProxy p).host = p.host ∧
    (toTransportProxy p).port = p.port ∧
    (toTransportProxy p).username = p.username ∧
    (toTransportProxy p).password = p.password ∧
    (toTransportProxy p).country = p.country ∧
    (toTransportProxy p).protocol =
      (if p.protocol = Protocol.https then Protocol.http else p.protocol) ∧
    (toTransportProxy p).protocol ≠ Protocol.https := by
  refine ⟨rfl, rfl, rfl, rfl, rfl, rfl, rfl, ?_⟩
  cases hp : p.protocol <;> simp [toTransportProxy, hp]

/-- C9: When a proxy unit is configured but acquiring a proxy for an
attempt throws (e.g. the pool is exhausted), the attempt still
proceeds: exactly one transport call is made, carrying no proxy, the
attempt's result is the normal handling of that transport outcome
(never a failure at the acquisition step), and no proxy is blamed. -/
theorem proxy_acquire_failure_degrades (env : Env) (url : UrlInput)
    (options : RequestOptions) (i : Nat) (pool : ProxyPool) (e : String)
    (hp : env.proxy = some pool) (hg : pool.get i = Except.error e) :
    transportCalls (httpOperation env url options i).2 =
      [(i, { url := url, method := options.method.getD Method.GET
             headers := options.headers, body := options.body
             timeout := options.timeout, proxy := none })] ∧
    (httpOperation env url options i).2.head? = some (Event.proxyAcquireFailed i e) ∧
    reportedFailures (httpOperation env url options i).2 = [] ∧
    (httpOperation env url options i).1 =
      (match env.transport i
          { url := url, method := options.method.getD Method.GET
            headers := options.headers, body := options.body
            timeout := options.timeout, proxy := none } with
       | TransportOutcome.ok r => Except.ok r
       | TransportOutcome.httpError err => Except.error ("HTTP request failed: " ++ err)
       | TransportOutcome.thrown m => Except.error m) := by
  unfold httpOperation
  rw [hp]
  dsimp only
  rw [hg]
  dsimp only
  rcases ht : env.transport i _ with r | er | m <;>
    simp [ht, catchBlock, hp, transportCalls, reportedFailures]

/-- C9 witness: with an exhausted pool and a 404 transport, the attempt
reaches the transport without a proxy and ends with the application
error, blaming no proxy. -/
theorem proxy_acquire_failure_degrades_witness :
    transportCalls (httpOperation { baseEnv with
        proxy := some exhaustedPool, transport := notFoundTransport } usersInput {} 1).2 =
      [(1, { url := usersInput, method := Method.GET, headers := none
             body := none, timeout := none, proxy := none })] ∧
    reportedFailures (httpOperation { baseEnv with
        proxy := some exhaustedPool, transport := notFoundTransport } usersInput {} 1).2 = [] ∧
    (httpOperation { baseEnv with
        proxy := some exhaustedPool, transport := notFoundTransport } usersInput {} 1).1 =
      Except.error "HTTP request failed: 404 Not Found" := by
  have h := proxy_acquire_failure_degrades
    { baseEnv with proxy := some exhaustedPool, transport := notFoundTransport }
    usersInput {} 1 exhaustedPool "Pool exhausted" rfl rfl
  refine ⟨?_, h.2.2.1, ?_⟩
  · rw [h.1]; rfl
  · rw [h.2.2.2]; rfl

/-- C4: For every attempt made with a proxy unit configured whose
acquisition succeeds, a fresh pool connection is acquired for that
attempt (the attempt's first event) and the single transport call of
the attempt carries exactly its converted shape; when the attempt fails
with a message classified as a proxy/network error, exactly one failure
report is made for that attempt's proxy and it is the attempt's last
event (hence it precedes the next attempt's acquisition); when the
attempt fails with a message not so classified, or succeeds, no failure
report is made. -/
theorem per_attempt_proxy_accounting (env : Env) (url : UrlInput)
    (options : RequestOptions) (i : Nat) (pool : ProxyPool) (p : ProxyPoolConnection)
    (hp : env.proxy = some pool) (hg : pool.get i = Except.ok p) :
    (httpOperation env url options i).2.head? = some (Event.proxyAcquired i p) ∧
    transportCalls (httpOperation env url options i).2 =
      [(i, { url := url, method := options.method.getD Method.GET
             headers := options.headers, body := options.body
             timeout := options.timeout, proxy := some (toTransportProxy p) })] ∧
    reportedFailures (httpOperation env url options i).2 =
      (match (httpOperation env url options i).1 with
       | Except.ok _ => []
       | Except.error m => if isProxyError m then [(i, p)] else []) ∧
    (httpOperation env url options i).2.getLast? =
      (match (httpOperation env url options i).1 with
       | Except.ok _ => some (Event.transportCall i
           { url := url, method := options.method.getD Method.GET
             headers := options.headers, body := options.body
             timeout := options.timeout, proxy := some (toTransportProxy p) })
       | Except.error m =>
           if isProxyError m then some (Event.proxyReportedFailed i p)
           else some (Event.transportCall i
             { url := url, method := options.method.getD Method.GET
               headers := options.headers, body := options.body
               timeout := options.timeout, proxy := some (toTransportProxy p) })) := by
  unfold httpOperation
  rw [hp]
  dsimp only
  rw [hg]
  dsimp only
  rcases ht : env.transport i _ with r | er | m
  · simp [transportCalls, reportedFailures]
  · unfold catchBlock
    rw [hp]
    dsimp only
    by_cases hpe : isProxyError ("HTTP request failed: " ++ er) <;>
      simp [hpe, transportCalls, reportedFailures]
  · unfold catchBlock
    rw [hp]
    dsimp only
    by_cases hpe : isProxyError m <;>
      simp [hpe, transportCalls, reportedFailures]

/-- C4 witness: with the two-proxy pool and a connection-refused
transport, attempt 1 acquires proxy A and reports exactly it failed,
as the attempt's last event. -/
theorem per_attempt_proxy_accounting_witness :
    (httpOperation { baseEnv with
        proxy := some twoProxyPool, transport := refusedTransport } usersInput {} 1).2.head? =
      some (Event.proxyAcquired 1 sampleProxyA) ∧
    reportedFailures (httpOperation { baseEnv with
        proxy := some twoProxyPool, transport := refusedTransport } usersInput {} 1).2 =
      [(1, sampleProxyA)] ∧
    (httpOperation { baseEnv with
        proxy := some twoProxyPool, transport := refusedTransport } usersInput {} 1).2.getLast? =
      some (Event.proxyReportedFailed 1 sampleProxyA) := by
  have h := per_attempt_proxy_accounting
    { baseEnv with proxy := some twoProxyPool, transport := refusedTransport }
    usersInput {} 1 twoProxyPool sampleProxyA rfl rfl
  refine ⟨h.1, ?_, ?_⟩
  · rw [h.2.2.1]; decide
  · rw [h.2.2.2]; decide

/-- C3: With a rate limiter configured, a denied admission makes the
call fail immediately with the limiter's remaining-wait value: no
transport attempt is made, no delay is scheduled, and the registry
(hence every circuit, including a lazily-created one for this url) is
left exactly as it was. -/
theorem rate_limit_denial_fails_fast (env : Env) (s : NetworkState) (url : UrlInput)
    (options : RequestOptions) (check : RateLimitContext → RateLimitResult)
    (hrl : env.rateLimiter = some check)
    (hdeny : (check (rateLimitContext env url)).allowed = false) :
    request env s url options =
      { outcome := RequestOutcome.rateLimitExceeded (check (rateLimitContext env url)).retryAfter
        state := s, events := [], delays := [] } := by
  unfold request
  rw [hrl]
  dsimp only
  rw [if_neg (by simp [hdeny])]

/-- C3 witness: a limiter denying with `retryAfter = 1234` makes the
request fail with that wait, leaving the empty registry untouched. -/
theorem rate_limit_denial_fails_fast_witness :
    request { baseEnv with
        rateLimiter := some fun _ => { allowed := false, remaining := 0, retryAfter := 1234 } }
      emptyState usersInput {} =
      { outcome := RequestOutcome.rateLimitExceeded 1234
        state := emptyState, events := [], delays := [] } := by
  have h := rate_limit_denial_fails_fast
    { baseEnv with
        rateLimiter := some fun _ => { allowed := false, remaining := 0, retryAfter := 1234 } }
    emptyState usersInput {}
    (fun _ => { allowed := false, remaining := 0, retryAfter := 1234 }) rfl rfl
  rw [h]

/-- C8: The admission context handed to the rate limiter is keyed by
the hostname of the target url — the url itself when absolute, the url
resolved against the configured base url (default `http://localhost`)
when relative — so two absolute urls on the same host, regardless of
path, produce the same key; and `request` consults the limiter at
exactly this context, admitting or failing by its decision. -/
theorem rate_limit_key_hostname (env : Env) (s : NetworkState)
    (options : RequestOptions) (url : UrlInput) (p : String) (u₁ u₂ : Url)
    (check : RateLimitContext → RateLimitResult)
    (hsame : u₁.host = u₂.host) (hrl : env.rateLimiter = some check) :
    (rateLimitContext env url).key = (resolveFullUrl url (env.baseUrl.getD localhostUrl)).host ∧
    (rateLimitContext env (UrlInput.absolute u₁)).key = u₁.host ∧
    (rateLimitContext env (UrlInput.relative p)).key = (env.baseUrl.getD localhostUrl).host ∧
    (rateLimitContext env (UrlInput.absolute u₁)).key =
      (rateLimitContext env (UrlInput.absolute u₂)).key ∧
    ((check (rateLimitContext env url)).allowed = true →
      request env s url options = requestAfterGate env s url options) ∧
    ((check (rateLimitContext env url)).allowed = false →
      (request env s url options).outcome =
        RequestOutcome.rateLimitExceeded (check (rateLimitContext env url)).retryAfter) := by
  refine ⟨rfl, rfl, rfl, ?_, ?_, ?_⟩
  · simpa [rateLimitContext, resolveFullUrl] using hsame
  · intro hallow
    apply request_gate_passed
    unfold rateAdmits
    rw [hrl]
    exact hallow
  · intro hdeny
    unfold request
    rw [hrl]
    dsimp only
    rw [if_neg (by simp [hdeny])]

/-- C8 witness: `/users` and `/orders` on the same host share the key
`api.example.com`, a relative path keys by the default localhost base,
and an admitting limiter lets the request proceed. -/
theorem rate_limit_key_hostname_witness :
    (rateLimitContext { baseEnv with
        rateLimiter := some fun _ => { allowed := true, remaining := 9, retryAfter := 0 } }
      usersInput).key = "api.example.com" ∧
    (rateLimitContext { baseEnv with
        rateLimiter := some fun _ => { allowed := true, remaining := 9, retryAfter := 0 } }
      (UrlInput.relative "/v1/things")).key = "localhost" ∧
    (rateLimitContext { baseEnv with
        rateLimiter := some fun _ => { allowed := true, remaining := 9, retryAfter := 0 } }
      usersInput).key =
      (rateLimitContext { baseEnv with
          rateLimiter := some fun _ => { allowed := true, remaining := 9, retryAfter := 0 } }
        ordersInput).key := by
  have h := rate_limit_key_hostname
    { baseEnv with
        rateLimiter := some fun _ => { allowed := true, remaining := 9, retryAfter := 0 } }
    emptyState {} usersInput "/v1/things" usersUrl ordersUrl
    (fun _ => { allowed := true, remaining := 9, retryAfter := 0 }) rfl rfl
  exact ⟨h.2.1, h.2.2.1, h.2.2.2.1⟩

/-- Lookup commutes with a key-preserving map over the registry. -/
theorem lookupCB_map (l : List (UrlInput × CircuitBreaker)) (u : UrlInput)
    (f : CircuitBreaker → CircuitBreaker) :
    lookupCB (l.map fun kv => (kv.1, f kv.2)) u = (lookupCB l u).map f := by
  induction l with
  | nil => simp [lookupCB]
  | cons kv rest ih => by_cases h : kv.1 = u <;> simp [lookupCB, h, ih]

/-- C7: After `resetCircuits()`, the circuit tracked under each key is
the reset of the one tracked before — state CLOSED, failureCount 0 and
successCount 0 for every tracked circuit — while the key set and the
entry count (`circuitBreakerCount`) are unchanged: no entry is
removed. -/
theorem reset_circuits_closes_all (s : NetworkState) (url : UrlInput) :
    lookupCB (resetCircuits s).circuitBreakers url =
      (lookupCB s.circuitBreakers url).map CircuitBreaker.resetCircuit ∧
    ((resetCircuits s).circuitBreakers.all fun kv =>
      kv.2.state == CircuitStateTag.CLOSED &&
      kv.2.failureCount == 0 && kv.2.successCount == 0) = true ∧
    (resetCircuits s).circuitBreakers.map Prod.fst = s.circuitBreakers.map Prod.fst ∧
    (resetCircuits s).circuitBreakers.length = s.circuitBreakers.length := by
  refine ⟨lookupCB_map s.circuitBreakers url CircuitBreaker.resetCircuit, ?_, ?_, ?_⟩
  · simp [resetCircuits, List.all_eq_true, CircuitBreaker.resetCircuit]
  · simp [resetCircuits]
  · simp [resetCircuits]

/-- C7 witness: resetting a registry holding an OPEN `/orders` circuit
and a CLOSED `/users` circuit yields CLOSED, zero-count circuits under
both keys, with both entries still present. -/
theorem reset_circuits_closes_all_witness :
    lookupCB (resetCircuits { circuitBreakers :=
        [(ordersInput, openCircuit), (usersInput, CircuitBreaker.create sampleConfig)] }).circuitBreakers
      ordersInput = some (openCircuit.resetCircuit) ∧
    openCircuit.resetCircuit.state = CircuitStateTag.CLOSED ∧
    openCircuit.resetCircuit.failureCount = 0 ∧
    openCircuit.resetCircuit.successCount = 0 ∧
    (resetCircuits { circuitBreakers :=
        [(ordersInput, openCircuit), (usersInput, CircuitBreaker.create sampleConfig)] }).circuitBreakers.length = 2 := by
  have h := reset_circuits_closes_all
    { circuitBreakers := [(ordersInput, openCircuit), (usersInput, CircuitBreaker.create sampleConfig)] }
    ordersInput
  refine ⟨?_, by decide, by decide, by decide, h.2.2.2⟩
  rw [h.1]
  decide

/-- C6: The registry keeps one circuit per distinct raw url key: a
`request` to one url leaves every other key's entry untouched, creates
the url's own entry lazily when it passes the rate-limit gate, and
never removes an entry. -/
theorem circuit_registry_isolation (env : Env) (s : NetworkState)
    (url url' : UrlInput) (options : RequestOptions) (hne : url' ≠ url) :
    lookupCB (request env s url options).state.circuitBreakers url' =
      lookupCB s.circuitBreakers url' ∧
    (rateAdmits env url = true →
      (lookupCB (request env s url options).state.circuitBreakers url).isSome = true) ∧
    ((lookupCB s.circuitBreakers url).isSome = true →
      (lookupCB (request env s url options).state.circuitBreakers url).isSome = true) := by
  refine ⟨?_, ?_, ?_⟩
  · rcases request_state_shape env s url options with h | ⟨cb, h⟩
    · rw [h]
    · rw [h, lookupCB_setCB_ne _ _ _ _ hne]
  · intro hadm
    rw [request_gate_passed env s url options hadm]
    obtain ⟨cb, h⟩ := requestAfterGate_state env s url options
    rw [h, lookupCB_setCB_self]
    rfl
  · intro hsome
    rcases request_state_shape env s url options with h | ⟨cb, h⟩
    · rw [h]; exact hsome
    · rw [h, lookupCB_setCB_self]; rfl

/-- C6 witness: a first request to `/users` creates only the `/users`
circuit, leaving `/orders` absent; with an OPEN `/orders` circuit in
the registry, a request to `/users` leaves the `/orders` entry exactly
as it was. -/
theorem circuit_registry_isolation_witness :
    lookupCB (request baseEnv emptyState usersInput {}).state.circuitBreakers ordersInput =
      none ∧
    (lookupCB (request baseEnv emptyState usersInput {}).state.circuitBreakers usersInput).isSome = true ∧
    lookupCB (request baseEnv { circuitBreakers := [(ordersInput, openCircuit)] }
        usersInput {}).state.circuitBreakers ordersInput = some openCircuit := by
  have h₁ := circuit_registry_isolation baseEnv emptyState usersInput ordersInput {}
    (by decide)
  have h₂ := circuit_registry_isolation baseEnv { circuitBreakers := [(ordersInput, openCircuit)] }
    usersInput ordersInput {} (by decide)
  refine ⟨?_, h₁.2.1 rfl, ?_⟩
  · rw [h₁.1]; rfl
  · rw [h₂.1]; decide

/-- C5: A `request` that reaches the retry phase (rate limit passed,
circuit admitted or proxy-rotation override) returns the retry result
on overall success and records exactly one success into the url's
circuit; on overall failure it fails wrapping the final error and
records exactly one failure into the url's circuit — in both cases the
url's registry entry afterwards is exactly one recording applied to the
admitted circuit. -/
theorem retry_phase_records_once (env : Env) (s : NetworkState) (url : UrlInput)
    (options : RequestOptions)
    (hrl : rateAdmits env url = true)
    (hadm : (admissionStep env s url).2.1 = true ∨ env.proxy.isSome = true) :
    (request env s url options).outcome =
      (match (runWithRetry env callSitePolicy (httpOperation env url options)).1 with
       | Except.ok r => RequestOutcome.success r
       | Except.error e => RequestOutcome.failedAfterRetries e) ∧
    lookupCB (request env s url options).state.circuitBreakers url =
      some (match (runWithRetry env callSitePolicy (httpOperation env url options)).1 with
            | Except.ok _ => (admissionStep env s url).1.recordSuccess
            | Except.error _ => (admissionStep env s url).1.recordFailure env.now) ∧
    (request env s url options).events =
      (runWithRetry env callSitePolicy (httpOperation env url options)).2.1 ∧
    (request env s url options).delays =
      (runWithRetry env callSitePolicy (httpOperation env url options)).2.2 := by
  rw [request_gate_passed env s url options hrl]
  unfold requestAfterGate
  have hcond : ¬((admissionStep env s url).2.1 = false ∧ env.proxy.isNone = true) := by
    rintro ⟨h1, h2⟩
    rcases hadm with h | h
    · rw [h] at h1; cases h1
    · rw [Option.isNone_iff_eq_none] at h2
      rw [h2] at h
      simp at h
  rw [if_neg hcond]
  unfold retryPhase
  rcases hr : (runWithRetry env callSitePolicy (httpOperation env url options)).1 with e | r <;>
    simp [hr, lookupCB_setCB_self]

/-- C5 witness: on the always-succeeding transport, the request returns
the transport result and the `/users` circuit records one success; on
the always-refused transport, the request fails wrapping the final
error and the circuit records one failure. -/
theorem retry_phase_records_once_witness :
    (request baseEnv emptyState usersInput {}).outcome = RequestOutcome.success okResult ∧
    lookupCB (request baseEnv emptyState usersInput {}).state.circuitBreakers usersInput =
      some ((CircuitBreaker.create sampleConfig).recordSuccess) ∧
    (request { baseEnv with transport := refusedTransport } emptyState usersInput {}).outcome =
      RequestOutcome.failedAfterRetries "connect ECONNREFUSED 93.184.216.34:443" ∧
    lookupCB (request { baseEnv with transport := refusedTransport }
        emptyState usersInput {}).state.circuitBreakers usersInput =
      some ((CircuitBreaker.create sampleConfig).recordFailure 100000) := by
  have hok := retry_phase_records_once baseEnv emptyState usersInput {} rfl
    (Or.inl (by decide))
  have hko := retry_phase_records_once { baseEnv with transport := refusedTransport }
    emptyState usersInput {} rfl (Or.inl (by decide))
  refine ⟨?_, ?_, ?_, ?_⟩
  · rw [hok.1]; decide
  · rw [hok.2.1]; decide
  · rw [hko.1]; decide
  · rw [hko.2.1]; decide

/-- C1: When the circuit breaker for a url denies admission and the
rate-limit gate passed: with no proxy unit configured the call fails
immediately with the circuit-open error, making no transport attempt
and scheduling no delay; with a proxy unit configured the call proceeds
to the retry phase anyway, and a success there is recorded into the
url's circuit through the normal success-recording path. -/
theorem circuit_open_admission (env : Env) (s : NetworkState) (url : UrlInput)
    (options : RequestOptions)
    (hrl : rateAdmits env url = true)
    (hdeny : (admissionStep env s url).2.1 = false) :
    (env.proxy.isNone = true →
      request env s url options =
        { outcome := RequestOutcome.circuitOpen
          state := (admissionStep env s url).2.2, events := [], delays := [] }) ∧
    (env.proxy.isSome = true →
      (request env s url options).events =
        (runWithRetry env callSitePolicy (httpOperation env url options)).2.1 ∧
      (request env s url options).outcome =
        (match (runWithRetry env callSitePolicy (httpOperation env url options)).1 with
         | Except.ok r => RequestOutcome.success r
         | Except.error e => RequestOutcome.failedAfterRetries e) ∧
      lookupCB (request env s url options).state.circuitBreakers url =
        some (match (runWithRetry env callSitePolicy (httpOperation env url options)).1 with
              | Except.ok _ => (admissionStep env s url).1.recordSuccess
              | Except.error _ => (admissionStep env s url).1.recordFailure env.now)) := by
  constructor
  · intro hnone
    rw [request_gate_passed env s url options hrl]
    unfold requestAfterGate
    rw [if_pos ⟨hdeny, hnone⟩]
  · intro hsome
    rw [request_gate_passed env s url options hrl]
    unfold requestAfterGate
    have hcond : ¬((admissionStep env s url).2.1 = false ∧ env.proxy.isNone = true) := by
      rintro ⟨-, h2⟩
      rw [Option.isNone_iff_eq_none] at h2
      rw [h2] at hsome
      simp at hsome
    rw [if_neg hcond]
    unfold retryPhase
    rcases hr : (runWithRetry env callSitePolicy (httpOperation env url options)).1 with e | r <;>
      simp [hr, lookupCB_setCB_self]

/-- C1 witness: with the `/users` circuit OPEN inside its open-timeout,
a proxyless request fails with the circuit-open outcome, making no
transport call; the same request with the two-proxy pool proceeds, and
its success closes the circuit via the normal success recording. -/
theorem circuit_open_admission_witness :
    request baseEnv { circuitBreakers := [(usersInput, openCircuit)] } usersInput {} =
      { outcome := RequestOutcome.circuitOpen
        state := { circuitBreakers := [(usersInput, openCircuit)] }
        events := [], delays := [] } ∧
    (request { baseEnv with proxy := some twoProxyPool }
        { circuitBreakers := [(usersInput, openCircuit)] } usersInput {}).outcome =
      RequestOutcome.success okResult ∧
    lookupCB (request { baseEnv with proxy := some twoProxyPool }
        { circuitBreakers := [(usersInput, openCircuit)] } usersInput {}).state.circuitBreakers
      usersInput = some (openCircuit.recordSuccess) := by
  have hnone := circuit_open_admission baseEnv
    { circuitBreakers := [(usersInput, openCircuit)] } usersInput {} rfl (by decide)
  have hsome := circuit_open_admission { baseEnv with proxy := some twoProxyPool }
    { circuitBreakers := [(usersInput, openCircuit)] } usersInput {} rfl (by decide)
  refine ⟨?_, ?_, ?_⟩
  · rw [hnone.1 rfl]; decide
  · rw [(hsome.2 rfl).2.1]; decide
  · rw [(hsome.2 rfl).2.2]; decide

/-- C2 (code bug): the orchestrator always hands the retry unit the
literal call-site policy `{maxAttempts: 3, baseDelay: 1000, maxDelay:
10000, backoffMultiplier: 2}` (src lines 266-271), whatever retry
configuration the unit was created with; so even configured with
`{maxAttempts: 3, baseDelayMs: 100, backoffFactor: 2, jitter: false}`
a request whose three attempts all fail schedules delays
`[0, 1000, 2000]`, not the `[0, 100, 200]` the configuration asks for,
although the delay schedule itself would yield `[0, 100, 200]` under
the configured policy. -/
theorem retry_config_ignored (rp : RetryPolicy) :
    ({ baseEnv with transport := refusedTransport, configuredRetry := rp } : Env).configuredRetry
      = rp ∧
    (request { baseEnv with transport := refusedTransport, configuredRetry := rp }
        emptyState usersInput {}).delays = [0, 1000, 2000] ∧
    (retryDelay claimedRetryConfig 1 = 0 ∧ retryDelay claimedRetryConfig 2 = 100 ∧
      retryDelay claimedRetryConfig 3 = 200) ∧
    (retryDelay callSitePolicy 1 = 0 ∧ retryDelay callSitePolicy 2 = 1000 ∧
      retryDelay callSitePolicy 3 = 2000) ∧
    [0, 1000, 2000] ≠ ([0, 100, 200] : List Nat) := by
  refine ⟨rfl, ?_, ⟨rfl, rfl, rfl⟩, ⟨rfl, rfl, rfl⟩, by decide⟩
  rfl

end NetworkUnit
